import Mathlib

/-!
# Brook platform kernels of OpenMM: nonbonded force kernel and Verlet step kernel

A shallow embedding of `platforms/brook/src/BrookCalcNonbondedForceKernel.cpp`
(`initialize`, `initialize14Interactions`, `executeForces`, `executeEnergy`) and of the
contract of `BrookIntegrateVerletStepKernel::execute`.

Conventions of the embedding.

* C++ objects reached through pointers or references live in a `World`; a member function
  is a function from the world before the call to an outcome holding the world after the
  call.  A thrown exception does not undo earlier writes, so an outcome carries the world
  also when its result is an error.
* `this` is a `KernelId`; pointer comparison `== this` is equality of identifiers.
* `double` values are only copied by this code, never computed with, so they are elements
  of an arbitrary type `S.Dbl`.
* Classes declared outside the two source files (`BrookNonBonded`, `OpenMMBrookInterface`,
  `OpenMMContextImpl`, `NonbondedForce`, `System`) enter as parameters: their state is an
  arbitrary type and their member functions are arbitrary functions (`Collaborators`).
* Indexing a `std::vector` with unchecked `operator[]` at an index that is not below its
  size is undefined behaviour; the embedding stops there with `Error.outOfBounds`.
* Every call into the engine classes is appended to `World.calls`, so that "invoked once",
  "not invoked" and "in increasing order" are statements about that list.
* The diagnostic `FILE*` sink (`fprintf`, `fflush`, `getContentsString`) is outside the
  modelled state.
-/

namespace Brook

/-! ## Data model -/

/-- Errors a call can end with: the exceptions named by the specification, an error of the
opaque engine, and the fault of an unchecked out-of-bounds `operator[]`. -/
inductive Error where
  | configurationError
  | indexOutOfRange
  | invalidParticleReference
  | constraintConvergenceFailure
  | engineError (code : Nat)
  | outOfBounds
  deriving DecidableEq

/-- The types the source leaves opaque. -/
structure Sorts where
  /-- Values of C++ type `double`. -/
  Dbl : Type
  /-- State of a `BrookNonBonded` object. -/
  NonBonded : Type
  /-- State of the `OpenMMBrookInterface` object apart from its trigger and 1-4 fields. -/
  Engine : Type
  /-- State of an `OpenMMContextImpl`, force accumulators included. -/
  Context : Type

/-- Identity of a kernel instance (the value of `this`). -/
abbrev KernelId := Nat

/-- Modelled from the spec: the missing class `System`, of which `initialize` could read
the particle count. -/
structure System where
  numParticles : Nat
  deriving DecidableEq

/-- Modelled from the spec: a 1-4 interaction of the missing class `NonbondedForce`, a
particle pair with charge, radius and depth. -/
structure Nonbonded14 (D : Type) where
  particle1 : Int
  particle2 : Int
  charge : D
  radius : D
  depth : D

/-- Modelled from the spec: a particle of the missing class `NonbondedForce`, with charge,
LJ radius and LJ depth. -/
structure ParticleParameters (D : Type) where
  charge : D
  radius : D
  depth : D

/-- Modelled from the spec: the missing class `NonbondedForce`, read-only input holding the
per-particle parameters and the list of 1-4 interactions. -/
structure NonbondedForce (D : Type) where
  particles : List (ParticleParameters D)
  nonbonded14 : List (Nonbonded14 D)

/-- Modelled from the spec: the missing `NonbondedForce::getNumParticles`, the particle
count. -/
def NonbondedForce.getNumParticles {D : Type} (force : NonbondedForce D) : Nat :=
  force.particles.length

/-- Modelled from the spec: the missing `NonbondedForce::getNumNonbonded14`, the number of
1-4 interactions. -/
def NonbondedForce.getNumNonbonded14 {D : Type} (force : NonbondedForce D) : Nat :=
  force.nonbonded14.length

/-- Modelled from the spec: the missing `NonbondedForce::getParticleParameters`, the
parameters of the particle at an index. -/
def NonbondedForce.getParticleParameters {D : Type} (force : NonbondedForce D) (index : Nat) :
    Option (ParticleParameters D) :=
  force.particles[index]?

/-- Modelled from the spec: the missing `NonbondedForce::getNonbonded14Parameters`, the 1-4
interaction at an index. -/
def NonbondedForce.getNonbonded14Parameters {D : Type} (force : NonbondedForce D)
    (index : Nat) : Option (Nonbonded14 D) :=
  force.nonbonded14[index]?

/-- The constant `BrookCalcNonbondedForceKernel::BondName`. -/
def BondName : String := "LJ14"

/-- Modelled from the spec: the constant `NumberOfParticlesInBond` of the missing header
`BrookCalcNonbondedForceKernel.h` (a 1-4 record has 2 particle indices). -/
def NumberOfParticlesInBond : Nat := 2

/-- Modelled from the spec: the constant `NumberOfParametersInBond` of the missing header
`BrookCalcNonbondedForceKernel.h` (a 1-4 record has charge, radius and depth). -/
def NumberOfParametersInBond : Nat := 3

/-- Modelled from the spec: the missing class `BrookBondParameters`, a flat pre-sized table
of `numberOfBonds` records, each an index tuple and a parameter tuple; a slot that was never
set is `none`. -/
structure BrookBondParameters (D : Type) where
  bondName : String
  numberOfParticlesInBond : Nat
  numberOfParametersInBond : Nat
  numberOfBonds : Nat
  slots : List (Option (List Int × List D))

/-- Modelled from the spec: the missing constructor of `BrookBondParameters`, which fixes
the capacity and the two arities and leaves every slot unset. -/
def BrookBondParameters.create {D : Type} (bondName : String) (numberOfParticlesInBond
    numberOfParametersInBond numberOfBonds : Nat) : BrookBondParameters D :=
  { bondName := bondName
    numberOfParticlesInBond := numberOfParticlesInBond
    numberOfParametersInBond := numberOfParametersInBond
    numberOfBonds := numberOfBonds
    slots := List.replicate numberOfBonds none }

/-- Modelled from the spec: the missing `BrookBondParameters::setBond`.  It fails with
`IndexOutOfRange` if `i >= count`, fails with `InvalidParticleReference` if an index
references a nonexistent particle, and otherwise writes slot `i`. -/
def BrookBondParameters.setBond {D : Type} (particleExists : Int → Bool)
    (store : BrookBondParameters D) (i : Nat) (particles : List Int) (parameters : List D) :
    Except Error (BrookBondParameters D) :=
  if store.numberOfBonds ≤ i then .error .indexOutOfRange
  else if particles.all particleExists then
    .ok { store with slots := store.slots.set i (some (particles, parameters)) }
  else .error .invalidParticleReference

/-- The fields of `OpenMMBrookInterface` the kernel reads and writes, and the rest of its
state. -/
structure Interface (S : Sorts) where
  triggerForceKernel : Option KernelId
  triggerEnergyKernel : Option KernelId
  nonBonded14ForceParameters : Option (BrookBondParameters S.Dbl)
  engine : S.Engine

/-- Modelled from the spec: the missing `OpenMMBrookInterface::setTriggerForceKernel`, an
unconditional overwrite. -/
def Interface.setTriggerForceKernel {S : Sorts} (iface : Interface S) (k : KernelId) :
    Interface S :=
  { iface with triggerForceKernel := some k }

/-- Modelled from the spec: the missing `OpenMMBrookInterface::setTriggerEnergyKernel`, an
unconditional overwrite, independent of the force trigger. -/
def Interface.setTriggerEnergyKernel {S : Sorts} (iface : Interface S) (k : KernelId) :
    Interface S :=
  { iface with triggerEnergyKernel := some k }

/-- Modelled from the spec: the missing `OpenMMBrookInterface::setNonBonded14ForceParameters`,
which records the store handed to the interface. -/
def Interface.setNonBonded14ForceParameters {S : Sorts} (iface : Interface S)
    (store : BrookBondParameters S.Dbl) : Interface S :=
  { iface with nonBonded14ForceParameters := some store }

/-- Modelled from the spec: the missing `OpenMMBrookInterface::getTriggerForceKernel`, the
registered force trigger. -/
def Interface.getTriggerForceKernel {S : Sorts} (iface : Interface S) : Option KernelId :=
  iface.triggerForceKernel

/-- Modelled from the spec: the missing `OpenMMBrookInterface::getTriggerEnergyKernel`, the
registered energy trigger. -/
def Interface.getTriggerEnergyKernel {S : Sorts} (iface : Interface S) : Option KernelId :=
  iface.triggerEnergyKernel

/-- The member variables of a `BrookCalcNonbondedForceKernel`; `none` is `NULL`. -/
structure Kernel (S : Sorts) where
  numberOfParticles : Nat
  brookNonBonded : Option S.NonBonded
  brookBondParameters : Option (BrookBondParameters S.Dbl)

/-- The state the constructor leaves: `_numberOfParticles = 0`, `_brookNonBonded = NULL`,
`_brookBondParameters = NULL`. -/
def Kernel.uninitialized {S : Sorts} : Kernel S :=
  { numberOfParticles := 0, brookNonBonded := none, brookBondParameters := none }

/-- A call into one of the engine classes. -/
inductive Call (S : Sorts) where
  | setup (numberOfParticles : Nat) (parameters : List (List S.Dbl))
      (exclusions : List (List Int))
  | setBond (i : Nat) (particles : List Int) (parameters : List S.Dbl)
  | computeForces (context : S.Context)
  | computeEnergy (context : S.Context)

/-- Everything the kernels can reach: the kernel instances, the interface they were all
constructed against, and the calls made so far. -/
structure World (S : Sorts) where
  kernels : KernelId → Kernel S
  iface : Interface S
  calls : List (Call S)

/-- Write the member variables of kernel `self`. -/
def World.setKernel {S : Sorts} (w : World S) (self : KernelId) (k : Kernel S) : World S :=
  { w with kernels := fun j => if j = self then k else w.kernels j }

/-- Record a call. -/
def World.record {S : Sorts} (w : World S) (c : Call S) : World S :=
  { w with calls := w.calls ++ [c] }

/-- The member functions of the opaque classes.  Each returns the state after the call also
when it throws. -/
structure Collaborators (S : Sorts) where
  /-- The literal `0.0`. -/
  zero : S.Dbl
  /-- The state `new BrookNonBonded()` followed by `setLog( log )` produces. -/
  newNonBonded : S.NonBonded
  /-- `BrookNonBonded::setup` for the platform of this kernel. -/
  setup : S.NonBonded → Nat → List (List S.Dbl) → List (List Int) →
    Option Error × S.NonBonded
  /-- Whether a particle index references an existing particle, the test the specification
  gives `setBond`. -/
  particleExists : Int → Bool
  /-- `OpenMMBrookInterface::computeForces`. -/
  computeForces : Interface S → S.Context → Option Error × Interface S × S.Context
  /-- `OpenMMBrookInterface::computeEnergy`, with the conversion to `double`. -/
  computeEnergy : Interface S → S.Context → Except Error S.Dbl × Interface S × S.Context

/-- What a member function without a context argument leaves behind. -/
structure Outcome (S : Sorts) (α : Type) where
  result : Except Error α
  world : World S

/-- What a member function with an `OpenMMContextImpl&` argument leaves behind. -/
structure ExecOutcome (S : Sorts) (α : Type) where
  result : Except Error α
  world : World S
  context : S.Context

/-! ## Per-step operations -/

/-- The call `_openMMBrookInterface.computeForces( context )`. -/
def World.computeForces {S : Sorts} (C : Collaborators S) (context : S.Context)
    (w : World S) : ExecOutcome S Unit :=
  let r := C.computeForces w.iface context
  { result := match r.1 with
      | some e => .error e
      | none => .ok ()
    world := { w with iface := r.2.1, calls := w.calls ++ [Call.computeForces context] }
    context := r.2.2 }

/-- The call `_openMMBrookInterface.computeEnergy( context )`. -/
def World.computeEnergy {S : Sorts} (C : Collaborators S) (context : S.Context)
    (w : World S) : ExecOutcome S S.Dbl :=
  let r := C.computeEnergy w.iface context
  { result := r.1
    world := { w with iface := r.2.1, calls := w.calls ++ [Call.computeEnergy context] }
    context := r.2.2 }

/-- The member function `BrookCalcNonbondedForceKernel::executeForces`. -/
def executeForces {S : Sorts} (C : Collaborators S) (self : KernelId) (context : S.Context)
    (w : World S) : ExecOutcome S Unit :=
  if w.iface.getTriggerForceKernel = some self then
    w.computeForces C context
  else
    { result := .ok (), world := w, context := context }

/-- The member function `BrookCalcNonbondedForceKernel::executeEnergy`. -/
def executeEnergy {S : Sorts} (C : Collaborators S) (self : KernelId) (context : S.Context)
    (w : World S) : ExecOutcome S S.Dbl :=
  if w.iface.getTriggerEnergyKernel = some self then
    w.computeEnergy C context
  else
    { result := .ok C.zero, world := w, context := context }

/-! ## Initialization -/

/-- An assignment through unchecked `std::vector::operator[]`: defined only below the
size of the vector. -/
def vectorAssign {α : Type} (v : List α) (i : Nat) (x : α) : Except Error (List α) :=
  if i < v.length then .ok (v.set i x) else .error .outOfBounds

/-- The body of the loop over the particles in `initialize`: `particleParamArray` is a
freshly constructed, empty vector; a copy of it is assigned to `nonbondedParameters[ii]`;
then its elements 0, 1 and 2 are assigned radius, depth and charge. -/
def particleLoopBody {D : Type} (force : NonbondedForce D) (ii : Nat)
    (nonbondedParameters : List (List D)) : Except Error (List (List D)) :=
  match force.getParticleParameters ii with
  | none => .error .outOfBounds
  | some p =>
    let particleParamArray : List D := []
    match vectorAssign nonbondedParameters ii particleParamArray with
    | .error e => .error e
    | .ok nonbondedParameters1 =>
      match vectorAssign particleParamArray 0 p.radius with
      | .error e => .error e
      | .ok particleParamArray1 =>
        match vectorAssign particleParamArray1 1 p.depth with
        | .error e => .error e
        | .ok particleParamArray2 =>
          match vectorAssign particleParamArray2 2 p.charge with
          | .error e => .error e
          | .ok _ => .ok nonbondedParameters1

/-- The loop `for( int ii = 0; ii < _numberOfParticles; ii++ )` of `initialize`, from
index `ii` with `count` iterations left. -/
def particleLoop {D : Type} (force : NonbondedForce D) :
    Nat → Nat → List (List D) → Except Error (List (List D))
  | _, 0, nonbondedParameters => .ok nonbondedParameters
  | ii, count + 1, nonbondedParameters =>
    match particleLoopBody force ii nonbondedParameters with
    | .error e => .error e
    | .ok nonbondedParameters1 => particleLoop force (ii + 1) count nonbondedParameters1

/-- The table handed to `setup`: `nonbondedParameters` starts as an empty vector. -/
def buildNonbondedParameters {D : Type} (force : NonbondedForce D) (numberOfParticles : Nat) :
    Except Error (List (List D)) :=
  particleLoop force 0 numberOfParticles []

/-- The loop `for( int ii = 0; ii < numberOf14Forces; ii++ )` of
`initialize14Interactions`, from index `ii` with `count` iterations left, on the store
`_brookBondParameters` points to.  The store is mutated in place, so the store reached is
returned also when `setBond` throws, together with the `setBond` calls made. -/
def setBondLoop {S : Sorts} (C : Collaborators S) (force : NonbondedForce S.Dbl) :
    Nat → Nat → BrookBondParameters S.Dbl →
      Except Error Unit × BrookBondParameters S.Dbl × List (Call S)
  | _, 0, store => (.ok (), store, [])
  | ii, count + 1, store =>
    match force.getNonbonded14Parameters ii with
    | none => (.error .outOfBounds, store, [])
    | some b =>
      let particles := [b.particle1, b.particle2]
      let parameters := [b.charge, b.radius, b.depth]
      match store.setBond C.particleExists ii particles parameters with
      | .error e => (.error e, store, [Call.setBond ii particles parameters])
      | .ok store1 =>
        let r := setBondLoop C force (ii + 1) count store1
        (r.1, r.2.1, Call.setBond ii particles parameters :: r.2.2)

/-- The member function `BrookCalcNonbondedForceKernel::initialize14Interactions`. -/
def initialize14Interactions {S : Sorts} (C : Collaborators S) (self : KernelId)
    (_system : System) (force : NonbondedForce S.Dbl) (w : World S) : Outcome S Unit :=
  let numberOf14Forces := force.getNumNonbonded14
  let created : BrookBondParameters S.Dbl :=
    BrookBondParameters.create BondName NumberOfParticlesInBond NumberOfParametersInBond
      numberOf14Forces
  let r := setBondLoop C force 0 numberOf14Forces created
  let w1 : World S :=
    { kernels := fun j =>
        if j = self then { w.kernels self with brookBondParameters := some r.2.1 }
        else w.kernels j
      iface := w.iface
      calls := w.calls ++ r.2.2 }
  match r.1 with
  | .error e => { result := .error e, world := w1 }
  | .ok _ =>
    { result := .ok ()
      world := { w1 with iface := w1.iface.setNonBonded14ForceParameters r.2.1 } }

/-- The member function `BrookCalcNonbondedForceKernel::initialize`. -/
def initializeKernel {S : Sorts} (C : Collaborators S) (self : KernelId) (system : System)
    (force : NonbondedForce S.Dbl) (exclusions : List (List Int)) (w : World S) :
    Outcome S Unit :=
  let numberOfParticles := force.getNumParticles
  let k1 : Kernel S :=
    { w.kernels self with
      numberOfParticles := numberOfParticles
      brookNonBonded := some C.newNonBonded }
  let w1 := w.setKernel self k1
  match buildNonbondedParameters force numberOfParticles with
  | .error e => { result := .error e, world := w1 }
  | .ok nonbondedParameters =>
    let r := C.setup C.newNonBonded numberOfParticles nonbondedParameters exclusions
    let w2 := (w1.setKernel self { k1 with brookNonBonded := some r.2 }).record
      (Call.setup numberOfParticles nonbondedParameters exclusions)
    match r.1 with
    | some e => { result := .error e, world := w2 }
    | none =>
      let w3 : World S :=
        { w2 with
          iface := (w2.iface.setTriggerForceKernel self).setTriggerEnergyKernel self }
      initialize14Interactions C self system force w3

/-- The record `initialize14Interactions` passes to `setBond` for the 1-4 interaction `b`:
the index pair and the parameter triple. -/
def record14 {D : Type} (b : Nonbonded14 D) : List Int × List D :=
  ([b.particle1, b.particle2], [b.charge, b.radius, b.depth])

/-- The store the specification describes for a force: capacity the number of 1-4
interactions, particle-arity 2, parameter-arity 3, slot `i` holding record `i`. -/
def expected14Store {D : Type} (force : NonbondedForce D) : BrookBondParameters D :=
  { bondName := BondName
    numberOfParticlesInBond := 2
    numberOfParametersInBond := 3
    numberOfBonds := force.nonbonded14.length
    slots := force.nonbonded14.map fun b => some (record14 b) }

/-- The `setBond` calls the specification describes for a force: one for each slot, in
increasing order of the slot. -/
def expectedSetBondCalls {S : Sorts} (force : NonbondedForce S.Dbl) : List (Call S) :=
  force.nonbonded14.enum.map fun ib => Call.setBond ib.1 (record14 ib.2).1 (record14 ib.2).2

/-- Writing the records of `rest` into consecutive slots from slot `ii` on. -/
def writeSlots {D : Type} :
    Nat → List (Nonbonded14 D) → List (Option (List Int × List D)) →
      List (Option (List Int × List D))
  | _, [], slots => slots
  | ii, b :: rest, slots => writeSlots (ii + 1) rest (slots.set ii (some (record14 b)))

/-- Every particle index of every 1-4 interaction of the force references an existing
particle. -/
def Valid14 {S : Sorts} (C : Collaborators S) (force : NonbondedForce S.Dbl) : Prop :=
  ∀ b ∈ force.nonbonded14, C.particleExists b.particle1 = true ∧
    C.particleExists b.particle2 = true

instance {S : Sorts} (C : Collaborators S) (force : NonbondedForce S.Dbl) :
    Decidable (Valid14 C force) := by
  unfold Valid14
  infer_instance

/-- Two outcomes of a per-step call, started in the worlds `w` and `w1`, are
indistinguishable: same result, same context, same interface and kernels afterwards, and
the same calls into the engine appended to the calls made before. -/
def ExecOutcome.agrees {S : Sorts} {α : Type} (o o1 : ExecOutcome S α) (w w1 : World S) :
    Prop :=
  o.result = o1.result ∧ o.context = o1.context ∧ o.world.iface = o1.world.iface ∧
    o.world.kernels = o1.world.kernels ∧
    ∃ cs, o.world.calls = w.calls ++ cs ∧ o1.world.calls = w1.calls ++ cs

/-- The world `initialize` has reached when `setup` has returned or thrown: kernel `self`
has the particle count of the force and the engine object `setup` was called on, and the
call is recorded. -/
def afterSetup {S : Sorts} (C : Collaborators S) (self : KernelId)
    (force : NonbondedForce S.Dbl) (exclusions : List (List Int)) (table : List (List S.Dbl))
    (w : World S) : World S :=
  (w.setKernel self
    { w.kernels self with
      numberOfParticles := force.getNumParticles
      brookNonBonded :=
        some (C.setup C.newNonBonded force.getNumParticles table exclusions).2 }).record
    (Call.setup force.getNumParticles table exclusions)

/-- The world `initialize` has reached when it calls `initialize14Interactions`: `setup`
has returned and kernel `self` is registered as force and energy trigger. -/
def afterRegistration {S : Sorts} (C : Collaborators S) (self : KernelId)
    (force : NonbondedForce S.Dbl) (exclusions : List (List Int)) (table : List (List S.Dbl))
    (w : World S) : World S :=
  { afterSetup C self force exclusions table w with
    iface := (w.iface.setTriggerForceKernel self).setTriggerEnergyKernel self }

/-- The run of the loop of `initialize14Interactions` on the store it creates: the result, the
store reached and the `setBond` calls made. -/
def run14 {S : Sorts} (C : Collaborators S) (force : NonbondedForce S.Dbl) :
    Except Error Unit × BrookBondParameters S.Dbl × List (Call S) :=
  setBondLoop C force 0 force.getNumNonbonded14
    (BrookBondParameters.create BondName NumberOfParticlesInBond NumberOfParametersInBond
      force.getNumNonbonded14)

/-! ## The Verlet step kernel

`BrookIntegrateVerletStepKernel.h` declares `execute( Stream& positions, Stream& velocities,
const Stream& forces, double stepSize )`; its implementation and the classes
`BrookVerletDynamics` and `BrookShakeAlgorithm` are not among the source files. -/

/-- Modelled from the spec: a rigid-bond constraint of the missing integrator configuration,
a pair of particle indices with a target distance. -/
structure Constraint (D : Type) where
  particle1 : Nat
  particle2 : Nat
  length : D

/-- Modelled from the spec: the configuration of the missing implementation of the Verlet
step kernel: masses, the ordered constraint list, the iteration bound (a configuration
constant), and the floating-point steps, left abstract: the explicit Verlet update, the
adjustment of the two participants of one constraint along the bond vector, the test that a
constraint distance matches its target within the tolerance, and the velocities that
correspond to projected positions. -/
structure VerletConfiguration (D Stream : Type) where
  masses : List D
  constraints : List (Constraint D)
  maxIterations : Nat
  verletUpdate : List D → Stream → Stream → Stream → D → Stream × Stream
  adjust : Constraint D → Stream → Stream
  withinTolerance : Constraint D → Stream → Bool
  projectVelocities : Stream → Stream → Stream → D → Stream

/-- Modelled from the spec: global convergence of the missing relaxation, every constraint
distance within tolerance. -/
def VerletConfiguration.converged {D Stream : Type} (cfg : VerletConfiguration D Stream)
    (positions : Stream) : Bool :=
  cfg.constraints.all fun c => cfg.withinTolerance c positions

/-- Modelled from the spec: one iteration of the missing relaxation, adjusting every
constraint pair in the order of the constraint list. -/
def VerletConfiguration.sweep {D Stream : Type} (cfg : VerletConfiguration D Stream)
    (positions : Stream) : Stream :=
  cfg.constraints.foldl (fun p c => cfg.adjust c p) positions

/-- Modelled from the spec: the missing relaxation loop, iterating over all constraints
until global convergence or until `remaining` iterations were made.  It returns whether it
converged, the positions reached and the number of iterations made. -/
def VerletConfiguration.relax {D Stream : Type} (cfg : VerletConfiguration D Stream) :
    Nat → Stream → Bool × Stream × Nat
  | 0, positions => (cfg.converged positions, positions, 0)
  | remaining + 1, positions =>
    if cfg.converged positions then (true, positions, 0)
    else
      let r := cfg.relax remaining (cfg.sweep positions)
      (r.1, r.2.1, r.2.2 + 1)

/-- What `execute` leaves behind: its result, the three streams, and the number of
relaxation iterations it made. -/
structure StepOutcome (Stream : Type) where
  result : Except Error Unit
  positions : Stream
  velocities : Stream
  forces : Stream
  iterations : Nat

/-- Modelled from the spec: the missing `BrookIntegrateVerletStepKernel::execute`: one
explicit Verlet update, then the relaxation onto the constraints; positions and velocities
are mutated in place, also when `ConstraintConvergenceFailure` is signalled; `forces` is a
`const` reference. -/
def execute {D Stream : Type} (cfg : VerletConfiguration D Stream)
    (positions velocities forces : Stream) (stepSize : D) : StepOutcome Stream :=
  let updated := cfg.verletUpdate cfg.masses positions velocities forces stepSize
  let r := cfg.relax cfg.maxIterations updated.1
  { result := if r.1 then .ok () else .error .constraintConvergenceFailure
    positions := r.2.1
    velocities := cfg.projectVelocities positions r.2.1 updated.2 stepSize
    forces := forces
    iterations := r.2.2 }

/-! ## A concrete instance, for evaluating the definitions -/

/-- Doubles, engine states and contexts are integers and naturals here. -/
abbrev demoSorts : Sorts :=
  { Dbl := Int, NonBonded := Nat, Engine := Nat, Context := Int }

/-- A `setup` that fails exactly for the exclusion list `[[13]]`, a force computation that adds
one to the context and fails on a negative context, an energy computation returning 42;
the particles that exist are 0, 1, 2 and 3. -/
def demoCollaborators : Collaborators demoSorts :=
  { zero := (0 : Int)
    newNonBonded := (0 : Nat)
    setup := fun nb n _ exclusions =>
      if exclusions = [[13]] then (some (Error.engineError 1), nb + 1) else (none, nb + n + 2)
    particleExists := fun p => decide (0 ≤ p ∧ p < 4)
    computeForces := fun iface context =>
      if context < 0 then (some (Error.engineError 2), iface, context)
      else (none, { iface with engine := iface.engine + 1 }, context + 1)
    computeEnergy := fun iface context => (.ok (42 : Int), iface, context) }

/-- A world of freshly constructed kernels: nothing registered, nothing called. -/
def demoWorld : World demoSorts :=
  { kernels := fun _ => Kernel.uninitialized
    iface :=
      { triggerForceKernel := none
        triggerEnergyKernel := none
        nonBonded14ForceParameters := none
        engine := (0 : Nat) }
    calls := [] }

/-- A world in which kernel 1 holds the force trigger and kernel 2 the energy trigger. -/
def demoTriggered : World demoSorts :=
  { demoWorld with
    iface :=
      { triggerForceKernel := some 1
        triggerEnergyKernel := some 2
        nonBonded14ForceParameters := none
        engine := (0 : Nat) } }

/-- A force specification without particles and with two 1-4 interactions. -/
def demoForce : NonbondedForce demoSorts.Dbl :=
  { particles := []
    nonbonded14 :=
      [ { particle1 := 0, particle2 := 3, charge := (5 : Int), radius := (6 : Int),
          depth := (7 : Int) },
        { particle1 := 1, particle2 := 2, charge := (8 : Int), radius := (9 : Int),
          depth := (10 : Int) } ] }

/-- A system of four particles. -/
def demoSystem : System := { numParticles := 4 }

/-- A force specification with one particle and no 1-4 interaction. -/
def demoOneParticle : NonbondedForce demoSorts.Dbl :=
  { particles := [ { charge := (1 : Int), radius := (2 : Int), depth := (3 : Int) } ]
    nonbonded14 := [] }

/-- A force specification without particles whose second 1-4 interaction references
particle 9, which does not exist. -/
def demoBadForce : NonbondedForce demoSorts.Dbl :=
  { particles := []
    nonbonded14 :=
      [ { particle1 := 0, particle2 := 3, charge := (5 : Int), radius := (6 : Int),
          depth := (7 : Int) },
        { particle1 := 1, particle2 := 9, charge := (8 : Int), radius := (9 : Int),
          depth := (10 : Int) } ] }

/-- Two particles on a line with integer coordinates and two constraints on the same pair
with the conflicting target distances 1 and 2; an adjustment moves the second particle to
the target distance from the first, the tolerance is zero, and at most 3 iterations are made. -/
def demoConflict : VerletConfiguration Int (List Int) :=
  { masses := [1, 1]
    constraints :=
      [ { particle1 := 0, particle2 := 1, length := 1 },
        { particle1 := 0, particle2 := 1, length := 2 } ]
    maxIterations := 3
    verletUpdate := fun _ positions velocities forces stepSize =>
      (List.zipWith (fun x v => x + stepSize * v) positions
        (List.zipWith (fun v f => v + stepSize * f) velocities forces),
       List.zipWith (fun v f => v + stepSize * f) velocities forces)
    adjust := fun c positions =>
      positions.set c.particle2 (positions.getD c.particle1 0 + c.length)
    withinTolerance := fun c positions =>
      decide (positions.getD c.particle2 0 - positions.getD c.particle1 0 = c.length)
    projectVelocities := fun _ _ velocities _ => velocities }

/-! ## Theorems -/

/-- C1: when kernel `self` is the registered force trigger, `executeForces` makes exactly one
call of the engine's force computation on the context (the call list grows by that one call),
and its outcome is the outcome of that call: the context and interface the engine leaves, the
engine's error unchanged when it fails, success when it succeeds; no kernel is touched. -/
theorem executeForces_trigger_invokes_once {S : Sorts} (C : Collaborators S) (self : KernelId)
    (context : S.Context) (w : World S) (h : w.iface.getTriggerForceKernel = some self) :
    (executeForces C self context w).world.calls = w.calls ++ [Call.computeForces context] ∧
    (∀ e, (C.computeForces w.iface context).1 = some e →
      (executeForces C self context w).result = .error e) ∧
    ((C.computeForces w.iface context).1 = none →
      (executeForces C self context w).result = .ok ()) ∧
    (executeForces C self context w).world.iface = (C.computeForces w.iface context).2.1 ∧
    (executeForces C self context w).context = (C.computeForces w.iface context).2.2 ∧
    (executeForces C self context w).world.kernels = w.kernels := by
  have hx : executeForces C self context w = w.computeForces C context := by
    simp only [executeForces, if_pos h]
  rw [hx]
  refine ⟨rfl, ?_, ?_, rfl, rfl, rfl⟩
  · intro e he
    simp only [World.computeForces, he]
  · intro he
    simp only [World.computeForces, he]

/-- C1 witness: in `demoTriggered` kernel 1 is the force trigger; on context 5 the engine is
called once and succeeds, on context -1 its error comes back unchanged. -/
theorem executeForces_trigger_invokes_once_witness :
    demoTriggered.iface.getTriggerForceKernel = some 1 ∧
    (executeForces demoCollaborators 1 (5 : Int) demoTriggered).world.calls =
      demoTriggered.calls ++ [Call.computeForces (5 : Int)] ∧
    (executeForces demoCollaborators 1 (5 : Int) demoTriggered).result = .ok () ∧
    (executeForces demoCollaborators 1 (5 : Int) demoTriggered).context = (6 : Int) ∧
    (executeForces demoCollaborators 1 (-1 : Int) demoTriggered).result =
      .error (Error.engineError 2) :=
  ⟨rfl,
   (executeForces_trigger_invokes_once demoCollaborators 1 (5 : Int) demoTriggered rfl).1,
   (executeForces_trigger_invokes_once demoCollaborators 1 (5 : Int) demoTriggered rfl).2.2.1
     rfl,
   rfl,
   (executeForces_trigger_invokes_once demoCollaborators 1 (-1 : Int) demoTriggered rfl).2.1
     (Error.engineError 2) rfl⟩

/-- C2: when kernel `self` is not the registered force trigger, `executeForces` succeeds
without any call into the engine and leaves the context, the interface (engine state, both
triggers, 1-4 registration), every kernel and the call list exactly as they were. -/
theorem executeForces_non_trigger_noop {S : Sorts} (C : Collaborators S) (self : KernelId)
    (context : S.Context) (w : World S) (h : w.iface.getTriggerForceKernel ≠ some self) :
    executeForces C self context w = { result := .ok (), world := w, context := context } := by
  simp only [executeForces, if_neg h]

/-- C2 witness: kernel 2 is not the force trigger of `demoTriggered`. -/
theorem executeForces_non_trigger_noop_witness :
    demoTriggered.iface.getTriggerForceKernel ≠ some 2 ∧
    executeForces demoCollaborators 2 (5 : Int) demoTriggered =
      { result := .ok (), world := demoTriggered, context := (5 : Int) } :=
  ⟨by decide,
   executeForces_non_trigger_noop demoCollaborators 2 (5 : Int) demoTriggered (by decide)⟩

/-- C3: when kernel `self` is not the registered energy trigger, `executeEnergy` returns
exactly `0.0` without any call into the engine (world, call list and context are unchanged);
nothing is assumed about the force trigger, so this holds whether or not `self` holds it. -/
theorem executeEnergy_non_trigger_zero {S : Sorts} (C : Collaborators S) (self : KernelId)
    (context : S.Context) (w : World S) (h : w.iface.getTriggerEnergyKernel ≠ some self) :
    executeEnergy C self context w =
      { result := .ok C.zero, world := w, context := context } := by
  simp only [executeEnergy, if_neg h]

/-- C3 witness: kernel 1 holds the force trigger of `demoTriggered` but not the energy
trigger, and its `executeEnergy` returns 0 although the engine would return 42. -/
theorem executeEnergy_non_trigger_zero_witness :
    demoTriggered.iface.getTriggerEnergyKernel ≠ some 1 ∧
    demoTriggered.iface.getTriggerForceKernel = some 1 ∧
    executeEnergy demoCollaborators 1 (5 : Int) demoTriggered =
      { result := .ok (0 : Int), world := demoTriggered, context := (5 : Int) } :=
  ⟨by decide, rfl,
   executeEnergy_non_trigger_zero demoCollaborators 1 (5 : Int) demoTriggered (by decide)⟩

/-! ### The particle loop -/

/-- With no particle the loop body never runs and the table stays empty. -/
theorem buildNonbondedParameters_zero {D : Type} (force : NonbondedForce D) :
    buildNonbondedParameters force 0 = .ok [] := rfl

/-- With at least one particle the first iteration already indexes beyond a size: the table
is still empty when `nonbondedParameters[0]` is assigned. -/
theorem buildNonbondedParameters_succ {D : Type} (force : NonbondedForce D) (n : Nat) :
    buildNonbondedParameters force (n + 1) = .error .outOfBounds := by
  unfold buildNonbondedParameters particleLoop particleLoopBody
  cases force.getParticleParameters 0 <;> rfl

/-- The table is built only for a force without particles, and then it is empty. -/
theorem buildNonbondedParameters_ok {D : Type} (force : NonbondedForce D) (n : Nat)
    (table : List (List D)) (h : buildNonbondedParameters force n = .ok table) :
    n = 0 ∧ table = [] := by
  cases n with
  | zero =>
    rw [buildNonbondedParameters_zero] at h
    exact ⟨rfl, (Except.ok.inj h).symm⟩
  | succ m =>
    rw [buildNonbondedParameters_succ] at h
    cases h

/-- C5: for every force specification with at least one particle, `initialize` stops with
the out-of-bounds fault of the particle loop: `setup` is never called (the call list is
unchanged), no trigger is registered, and the kernel is left with the new particle count and
an engine object that was never set up. -/
theorem initialize_particle_table_out_of_bounds {S : Sorts} (C : Collaborators S)
    (self : KernelId) (system : System) (force : NonbondedForce S.Dbl)
    (exclusions : List (List Int)) (w : World S) (h : 0 < force.getNumParticles) :
    initializeKernel C self system force exclusions w =
      { result := .error .outOfBounds
        world := w.setKernel self
          { w.kernels self with
            numberOfParticles := force.getNumParticles
            brookNonBonded := some C.newNonBonded } } := by
  obtain ⟨n, hn⟩ := Nat.exists_eq_succ_of_ne_zero (Nat.pos_iff_ne_zero.mp h)
  simp only [initializeKernel, hn, Nat.succ_eq_add_one, buildNonbondedParameters_succ]

/-- C5 witness: a force specification with the single particle (charge 1, radius 2,
depth 3); the first assignment `nonbondedParameters[0] = particleParamArray` is already
out of bounds, and so is `particleParamArray[0] = radius`. -/
theorem initialize_particle_table_out_of_bounds_witness :
    0 < demoOneParticle.getNumParticles ∧
    vectorAssign ([] : List (List Int)) 0 [] = .error .outOfBounds ∧
    vectorAssign ([] : List Int) 0 2 = .error .outOfBounds ∧
    (initializeKernel demoCollaborators 1 demoSystem demoOneParticle [] demoWorld).result =
      .error .outOfBounds ∧
    (initializeKernel demoCollaborators 1 demoSystem demoOneParticle [] demoWorld).world.calls
      = [] :=
  ⟨by decide, rfl, rfl,
   congrArg Outcome.result (initialize_particle_table_out_of_bounds demoCollaborators 1
     demoSystem demoOneParticle [] demoWorld (by decide)),
   congrArg (fun o => o.world.calls) (initialize_particle_table_out_of_bounds
     demoCollaborators 1 demoSystem demoOneParticle [] demoWorld (by decide))⟩

/-! ### The 1-4 loop -/

/-- Position `n` of a list whose suffix from `n` starts with `b`. -/
theorem getElem?_of_drop_eq_cons {α : Type} (l : List α) (n : Nat) (b : α) (rest : List α)
    (h : l.drop n = b :: rest) : l[n]? = some b ∧ l.drop (n + 1) = rest := by
  constructor
  · rw [← List.head?_drop, h]
    rfl
  · rw [← List.tail_drop, h]
    rfl

/-- Writing `rest` into the unset tail of a table gives the records of `rest` there. -/
theorem writeSlots_replicate {D : Type} (rest : List (Nonbonded14 D)) :
    ∀ pre : List (Option (List Int × List D)),
      writeSlots pre.length rest (pre ++ List.replicate rest.length none) =
        pre ++ rest.map fun b => some (record14 b) := by
  induction rest with
  | nil => intro pre; simp [writeSlots]
  | cons b rest ih =>
    intro pre
    have hset : (pre ++ List.replicate (b :: rest).length none).set pre.length
        (some (record14 b)) = (pre ++ [some (record14 b)]) ++ List.replicate rest.length none := by
      rw [List.set_append_right _ _ (Nat.le_refl _)]
      simp [List.replicate_succ]
    have hlen : (pre ++ [some (record14 b)]).length = pre.length + 1 := by simp
    simp only [writeSlots]
    rw [hset, ← hlen, ih (pre ++ [some (record14 b)])]
    simp

/-- When every remaining 1-4 interaction references existing particles, the loop from slot
`ii` succeeds, writes the remaining records into the consecutive slots from `ii` on, and
makes one `setBond` call for each, in increasing order. -/
theorem setBondLoop_valid {S : Sorts} (C : Collaborators S) (force : NonbondedForce S.Dbl) :
    ∀ (rest : List (Nonbonded14 S.Dbl)) (ii : Nat) (store : BrookBondParameters S.Dbl),
      force.nonbonded14.drop ii = rest →
      (∀ b ∈ rest, C.particleExists b.particle1 = true ∧ C.particleExists b.particle2 = true) →
      store.numberOfBonds = force.nonbonded14.length →
      setBondLoop C force ii rest.length store =
        (.ok (), { store with slots := writeSlots ii rest store.slots },
          (rest.enumFrom ii).map fun ib =>
            Call.setBond ib.1 (record14 ib.2).1 (record14 ib.2).2) := by
  intro rest
  induction rest with
  | nil =>
    intro ii store _ _ _
    simp [setBondLoop, writeSlots]
  | cons b rest ih =>
    intro ii store hdrop hvalid hcap
    obtain ⟨hget, hdrop1⟩ := getElem?_of_drop_eq_cons _ _ _ _ hdrop
    have hlt : ii < force.nonbonded14.length := (List.getElem?_eq_some.mp hget).1
    have hb := hvalid b (List.mem_cons_self _ _)
    have hset : store.setBond C.particleExists ii [b.particle1, b.particle2]
        [b.charge, b.radius, b.depth] =
        .ok { store with slots := store.slots.set ii (some (record14 b)) } := by
      simp [BrookBondParameters.setBond, hcap, hlt, hb.1, hb.2, record14]
    simp only [List.length_cons, setBondLoop, NonbondedForce.getNonbonded14Parameters, hget,
      hset]
    rw [ih (ii + 1) { store with slots := store.slots.set ii (some (record14 b)) }
      hdrop1 (fun x hx => hvalid x (List.mem_cons_of_mem _ hx)) hcap]
    simp [writeSlots, List.enumFrom_cons, record14]

/-- C6 (amended): for every force specification whose 1-4 interactions reference existing
particles only, `initialize14Interactions` succeeds; the store it creates has capacity the
number M of 1-4 interactions, particle-arity 2 and parameter-arity 3; it makes exactly the
calls `setBond( i, ... )` for i = 0, ..., M-1 in this order, each with the index pair and
the parameter triple of the i-th interaction, so that slot i holds that record; and this
filled store is the one the kernel keeps and the one handed to the interface.  Nothing else
changes. -/
theorem initialize14Interactions_fills_store {S : Sorts} (C : Collaborators S)
    (self : KernelId) (system : System) (force : NonbondedForce S.Dbl) (w : World S)
    (hvalid : Valid14 C force) :
    initialize14Interactions C self system force w =
      { result := .ok ()
        world :=
          { kernels := fun j =>
              if j = self then
                { w.kernels self with brookBondParameters := some (expected14Store force) }
              else w.kernels j
            iface := w.iface.setNonBonded14ForceParameters (expected14Store force)
            calls := w.calls ++ expectedSetBondCalls force } } := by
  have hloop := setBondLoop_valid C force force.nonbonded14 0
    (BrookBondParameters.create BondName NumberOfParticlesInBond
      NumberOfParametersInBond force.getNumNonbonded14)
    rfl hvalid rfl
  have hslots : writeSlots 0 force.nonbonded14
      (List.replicate force.nonbonded14.length (none : Option (List Int × List S.Dbl))) =
      force.nonbonded14.map fun b => some (record14 b) := by
    simpa using writeSlots_replicate force.nonbonded14 []
  simp only [initialize14Interactions, NonbondedForce.getNumNonbonded14] at hloop ⊢
  rw [hloop]
  simp only [BrookBondParameters.create, hslots]
  rfl

/-- C6 witness: both 1-4 interactions of `demoForce` reference particles among 0..3; slot 0
gets the pair (0, 3) with (5, 6, 7), then slot 1 the pair (1, 2) with (8, 9, 10). -/
theorem initialize14Interactions_fills_store_witness :
    Valid14 demoCollaborators demoForce ∧
    initialize14Interactions demoCollaborators 1 demoSystem demoForce demoWorld =
      { result := .ok ()
        world :=
          { kernels := fun j =>
              if j = 1 then
                { demoWorld.kernels 1 with
                  brookBondParameters := some (expected14Store demoForce) }
              else demoWorld.kernels j
            iface := demoWorld.iface.setNonBonded14ForceParameters (expected14Store demoForce)
            calls := demoWorld.calls ++ expectedSetBondCalls demoForce } } ∧
    (expected14Store demoForce).slots =
      [some ([0, 3], [(5 : Int), 6, 7]), some ([1, 2], [(8 : Int), 9, 10])] ∧
    (initialize14Interactions demoCollaborators 1 demoSystem demoForce demoWorld).world.calls =
      [Call.setBond 0 [0, 3] [(5 : Int), 6, 7], Call.setBond 1 [1, 2] [(8 : Int), 9, 10]] :=
  ⟨by decide,
   initialize14Interactions_fills_store demoCollaborators 1 demoSystem demoForce demoWorld
     (by decide),
   rfl, rfl⟩

/-- C6 counterexample: the second 1-4 interaction of `demoBadForce` references particle 9.
`setBond( 1, ... )` throws `InvalidParticleReference`: slot 1 of the store of capacity 2 is
never filled and the store is not handed to the interface. -/
theorem initialize14Interactions_invalid_reference_counterexample :
    demoBadForce.getNumNonbonded14 = 2 ∧
    (initialize14Interactions demoCollaborators 1 demoSystem demoBadForce demoWorld).result =
      .error .invalidParticleReference ∧
    Option.map BrookBondParameters.slots
      ((initialize14Interactions demoCollaborators 1 demoSystem demoBadForce
        demoWorld).world.kernels 1).brookBondParameters =
      some [some ([0, 3], [(5 : Int), 6, 7]), none] ∧
    (initialize14Interactions demoCollaborators 1 demoSystem demoBadForce
      demoWorld).world.iface.nonBonded14ForceParameters.isNone = true ∧
    (initialize14Interactions demoCollaborators 1 demoSystem demoBadForce
      demoWorld).world.calls =
      [Call.setBond 0 [0, 3] [(5 : Int), 6, 7], Call.setBond 1 [1, 9] [(8 : Int), 9, 10]] :=
  ⟨rfl, rfl, rfl, rfl, rfl⟩

/-! ### Frame of `initialize14Interactions` -/

/-- A successful `setBond` keeps the capacity. -/
theorem setBond_numberOfBonds {D : Type} (particleExists : Int → Bool)
    (store store1 : BrookBondParameters D) (i : Nat) (particles : List Int)
    (parameters : List D)
    (h : store.setBond particleExists i particles parameters = .ok store1) :
    store1.numberOfBonds = store.numberOfBonds := by
  unfold BrookBondParameters.setBond at h
  split at h
  · cases h
  · split at h
    · cases h
      rfl
    · cases h

/-- The loop keeps the capacity of the store, also when it stops with an error. -/
theorem setBondLoop_numberOfBonds {S : Sorts} (C : Collaborators S)
    (force : NonbondedForce S.Dbl) :
    ∀ (count ii : Nat) (store : BrookBondParameters S.Dbl),
      (setBondLoop C force ii count store).2.1.numberOfBonds = store.numberOfBonds := by
  intro count
  induction count with
  | zero => intro ii store; rfl
  | succ n ih =>
    intro ii store
    simp only [setBondLoop]
    split
    · rfl
    · rename_i b _
      split
      · rfl
      · rename_i store1 hset
        simp only [ih]
        exact setBond_numberOfBonds _ _ _ _ _ _ hset

/-- Whatever its result, `initialize14Interactions` appends the `setBond` calls of the loop,
writes only the bond store of kernel `self`, which then has capacity the number of 1-4
interactions, and leaves the triggers and the engine state of the interface alone. -/
theorem initialize14Interactions_frame {S : Sorts} (C : Collaborators S) (self : KernelId)
    (system : System) (force : NonbondedForce S.Dbl) (w : World S) :
    (initialize14Interactions C self system force w).world.kernels =
      (fun j =>
        if j = self then
          { w.kernels self with
            brookBondParameters := some (setBondLoop C force 0 force.getNumNonbonded14
              (BrookBondParameters.create BondName NumberOfParticlesInBond
                NumberOfParametersInBond force.getNumNonbonded14)).2.1 }
        else w.kernels j) ∧
    (initialize14Interactions C self system force w).world.calls =
      w.calls ++ (setBondLoop C force 0 force.getNumNonbonded14
        (BrookBondParameters.create BondName NumberOfParticlesInBond
          NumberOfParametersInBond force.getNumNonbonded14)).2.2 ∧
    (initialize14Interactions C self system force w).world.iface.triggerForceKernel =
      w.iface.triggerForceKernel ∧
    (initialize14Interactions C self system force w).world.iface.triggerEnergyKernel =
      w.iface.triggerEnergyKernel ∧
    (initialize14Interactions C self system force w).world.iface.engine = w.iface.engine := by
  simp only [initialize14Interactions]
  split <;> exact ⟨rfl, rfl, rfl, rfl, rfl⟩

/-- When `initialize14Interactions` fails the interface is unchanged; when it succeeds the
interface has the store of the loop registered. -/
theorem initialize14Interactions_iface {S : Sorts} (C : Collaborators S) (self : KernelId)
    (system : System) (force : NonbondedForce S.Dbl) (w : World S) :
    (∀ e, (initialize14Interactions C self system force w).result = .error e →
      (initialize14Interactions C self system force w).world.iface = w.iface) ∧
    ((initialize14Interactions C self system force w).result = .ok () →
      (initialize14Interactions C self system force w).world.iface =
        w.iface.setNonBonded14ForceParameters (setBondLoop C force 0 force.getNumNonbonded14
          (BrookBondParameters.create BondName NumberOfParticlesInBond
            NumberOfParametersInBond force.getNumNonbonded14)).2.1) := by
  simp only [initialize14Interactions]
  split
  · exact ⟨fun _ _ => rfl, fun h => by cases h⟩
  · exact ⟨fun _ h => (nomatch h), fun _ => rfl⟩

/-! ### `initialize` -/

/-- The result of `initialize14Interactions` is the result of its loop; it does not depend
on the world. -/
theorem initialize14Interactions_result {S : Sorts} (C : Collaborators S) (self : KernelId)
    (system : System) (force : NonbondedForce S.Dbl) (w : World S) :
    (initialize14Interactions C self system force w).result =
      (setBondLoop C force 0 force.getNumNonbonded14
        (BrookBondParameters.create BondName NumberOfParticlesInBond
          NumberOfParametersInBond force.getNumNonbonded14)).1 := by
  simp only [initialize14Interactions]
  split
  · rename_i e he
    rw [he]
  · rename_i u he
    rw [he]

/-- Writing the member variables of a kernel twice keeps the second write. -/
theorem setKernel_setKernel {S : Sorts} (w : World S) (self : KernelId) (k k1 : Kernel S) :
    (w.setKernel self k).setKernel self k1 = w.setKernel self k1 := by
  simp only [World.setKernel]
  congr 1
  funext j
  by_cases hj : j = self <;> simp [hj]

/-- When the particle table is built, `initialize` either stops at the error of `setup` or
goes on with `initialize14Interactions` after registering both triggers. -/
theorem initializeKernel_of_table {S : Sorts} (C : Collaborators S) (self : KernelId)
    (system : System) (force : NonbondedForce S.Dbl) (exclusions : List (List Int))
    (w : World S) (table : List (List S.Dbl))
    (htable : buildNonbondedParameters force force.getNumParticles = .ok table) :
    initializeKernel C self system force exclusions w =
      match (C.setup C.newNonBonded force.getNumParticles table exclusions).1 with
      | some e => { result := .error e, world := afterSetup C self force exclusions table w }
      | none =>
        initialize14Interactions C self system force
          (afterRegistration C self force exclusions table w) := by
  simp only [initializeKernel, htable, setKernel_setKernel]
  rfl

/-- Reading the world `afterSetup`. -/
theorem afterSetup_fields {S : Sorts} (C : Collaborators S) (self : KernelId)
    (force : NonbondedForce S.Dbl) (exclusions : List (List Int)) (table : List (List S.Dbl))
    (w : World S) :
    (afterSetup C self force exclusions table w).kernels self =
      { w.kernels self with
        numberOfParticles := force.getNumParticles
        brookNonBonded :=
          some (C.setup C.newNonBonded force.getNumParticles table exclusions).2 } ∧
    (∀ j, j ≠ self → (afterSetup C self force exclusions table w).kernels j = w.kernels j) ∧
    (afterSetup C self force exclusions table w).iface = w.iface ∧
    (afterSetup C self force exclusions table w).calls =
      w.calls ++ [Call.setup force.getNumParticles table exclusions] := by
  refine ⟨?_, ?_, rfl, rfl⟩
  · simp [afterSetup, World.setKernel, World.record]
  · intro j hj
    simp [afterSetup, World.setKernel, World.record, hj]

/-- Reading the world `afterRegistration`. -/
theorem afterRegistration_fields {S : Sorts} (C : Collaborators S) (self : KernelId)
    (force : NonbondedForce S.Dbl) (exclusions : List (List Int)) (table : List (List S.Dbl))
    (w : World S) :
    (afterRegistration C self force exclusions table w).kernels =
      (afterSetup C self force exclusions table w).kernels ∧
    (afterRegistration C self force exclusions table w).iface =
      { triggerForceKernel := some self
        triggerEnergyKernel := some self
        nonBonded14ForceParameters := w.iface.nonBonded14ForceParameters
        engine := w.iface.engine } ∧
    (afterRegistration C self force exclusions table w).calls =
      w.calls ++ [Call.setup force.getNumParticles table exclusions] :=
  ⟨rfl, rfl, rfl⟩

/-- C7 (amended): `initialize` never compares the particle count of the system with the one
of the force specification: its outcome is the same for every system, and the particle count
it records is the one of the force specification. -/
theorem initialize_ignores_system {S : Sorts} (C : Collaborators S) (self : KernelId)
    (system system1 : System) (force : NonbondedForce S.Dbl) (exclusions : List (List Int))
    (w : World S) :
    initializeKernel C self system force exclusions w =
      initializeKernel C self system1 force exclusions w ∧
    ((initializeKernel C self system force exclusions w).world.kernels self).numberOfParticles
      = force.getNumParticles := by
  refine ⟨rfl, ?_⟩
  cases ht : buildNonbondedParameters force force.getNumParticles with
  | error e => simp [initializeKernel, ht, World.setKernel]
  | ok table =>
    rw [initializeKernel_of_table C self system force exclusions w table ht]
    cases hs : (C.setup C.newNonBonded force.getNumParticles table exclusions).1 with
    | some e =>
      simp only [(afterSetup_fields C self force exclusions table w).1]
    | none =>
      simp only []
      rw [(initialize14Interactions_frame C self system force
        (afterRegistration C self force exclusions table w)).1]
      simp only [if_true, (afterRegistration_fields C self force exclusions table w).1,
        (afterSetup_fields C self force exclusions table w).1]

/-- C7 counterexample: the system has 4 particles and the force specification none, and
`initialize` succeeds, having called `setup` and registered kernel 1 as both triggers; with
the one-particle force specification it ends in the out-of-bounds fault, which is not a
`ConfigurationError` either. -/
theorem initialize_count_mismatch_counterexample :
    demoSystem.numParticles ≠ demoForce.getNumParticles ∧
    (initializeKernel demoCollaborators 1 demoSystem demoForce [] demoWorld).result = .ok () ∧
    (initializeKernel demoCollaborators 1 demoSystem demoForce [] demoWorld).world.calls =
      [Call.setup 0 [] [], Call.setBond 0 [0, 3] [(5 : Int), 6, 7],
        Call.setBond 1 [1, 2] [(8 : Int), 9, 10]] ∧
    (initializeKernel demoCollaborators 1 demoSystem demoForce []
      demoWorld).world.iface.triggerForceKernel = some 1 ∧
    (initializeKernel demoCollaborators 1 demoSystem demoForce []
      demoWorld).world.iface.triggerEnergyKernel = some 1 ∧
    demoSystem.numParticles ≠ demoOneParticle.getNumParticles ∧
    (initializeKernel demoCollaborators 1 demoSystem demoOneParticle [] demoWorld).result ≠
      .error .configurationError :=
  ⟨by decide, rfl, rfl, rfl, rfl, by decide, fun h => nomatch h⟩

/-- C8 (amended): `initialize` is not atomic on failure; what was written before the error
stays.  Whenever the particle table is built and `initialize` fails, the kernel has recorded
the particle count and holds the engine object `setup` was called on, while the 1-4
registration and the engine state of the interface and all other kernels are as before the
call.  If `setup` raised, the error is the one `setup` raised and both triggers and the bond
store of the kernel are as before.  If `setup` succeeded (so `setBond` raised), the kernel is
already registered as force and energy trigger and holds the new store of capacity the
number of 1-4 interactions. -/
theorem initialize_failure_keeps_partial_state {S : Sorts} (C : Collaborators S)
    (self : KernelId) (system : System) (force : NonbondedForce S.Dbl)
    (exclusions : List (List Int)) (w : World S) (table : List (List S.Dbl)) (e : Error)
    (htable : buildNonbondedParameters force force.getNumParticles = .ok table)
    (hfail : (initializeKernel C self system force exclusions w).result = .error e) :
    (((initializeKernel C self system force exclusions w).world.kernels self).numberOfParticles
        = force.getNumParticles ∧
      ((initializeKernel C self system force exclusions w).world.kernels self).brookNonBonded
        = some (C.setup C.newNonBonded force.getNumParticles table exclusions).2) ∧
    (initializeKernel C self system force exclusions w).world.iface.nonBonded14ForceParameters
      = w.iface.nonBonded14ForceParameters ∧
    (initializeKernel C self system force exclusions w).world.iface.engine = w.iface.engine ∧
    (∀ j, j ≠ self →
      (initializeKernel C self system force exclusions w).world.kernels j = w.kernels j) ∧
    (∀ e1, (C.setup C.newNonBonded force.getNumParticles table exclusions).1 = some e1 →
      e = e1 ∧
      (initializeKernel C self system force exclusions w).world.iface = w.iface ∧
      ((initializeKernel C self system force exclusions w).world.kernels
        self).brookBondParameters = (w.kernels self).brookBondParameters ∧
      (initializeKernel C self system force exclusions w).world.calls =
        w.calls ++ [Call.setup force.getNumParticles table exclusions]) ∧
    ((C.setup C.newNonBonded force.getNumParticles table exclusions).1 = none →
      (initializeKernel C self system force exclusions w).world.iface.triggerForceKernel
        = some self ∧
      (initializeKernel C self system force exclusions w).world.iface.triggerEnergyKernel
        = some self ∧
      ∃ store,
        ((initializeKernel C self system force exclusions w).world.kernels
          self).brookBondParameters = some store ∧
        store.numberOfBonds = force.getNumNonbonded14) := by
  rw [initializeKernel_of_table C self system force exclusions w table htable] at hfail ⊢
  obtain ⟨hk, hother, hif, hcalls⟩ := afterSetup_fields C self force exclusions table w
  cases hs : (C.setup C.newNonBonded force.getNumParticles table exclusions).1 with
  | some e1 =>
    rw [hs] at hfail
    simp only [] at hfail ⊢
    cases hfail
    rw [hk, hif]
    refine ⟨⟨rfl, rfl⟩, rfl, rfl, hother, ?_, ?_⟩
    · intro e2 he2
      cases he2
      exact ⟨rfl, rfl, rfl, hcalls⟩
    · intro h
      cases h
  | none =>
    rw [hs] at hfail
    simp only [] at hfail ⊢
    have hiface := (initialize14Interactions_iface C self system force
      (afterRegistration C self force exclusions table w)).1 e hfail
    have hframe := initialize14Interactions_frame C self system force
      (afterRegistration C self force exclusions table w)
    rw [hiface, hframe.1]
    simp only [if_true, (afterRegistration_fields C self force exclusions table w).1,
      (afterRegistration_fields C self force exclusions table w).2.1, hk]
    refine ⟨⟨trivial, trivial⟩, trivial, trivial, ?_, ?_, ?_⟩
    · intro j hj
      simp only [if_neg hj]
      exact hother j hj
    · intro e1 he1
      cases he1
    · intro _
      refine ⟨trivial, trivial, _, rfl, ?_⟩
      rw [setBondLoop_numberOfBonds]
      rfl

/-- C8 witness: with `demoBadForce` the table is built, `setup` succeeds and `setBond` raises
at slot 1, after kernel 1 was registered as force trigger; with the exclusion list `[[13]]`
the demo `setup` raises and the interface is as before. -/
theorem initialize_failure_keeps_partial_state_witness :
    buildNonbondedParameters demoBadForce demoBadForce.getNumParticles = .ok [] ∧
    (initializeKernel demoCollaborators 1 demoSystem demoBadForce [] demoWorld).result =
      .error .invalidParticleReference ∧
    (initializeKernel demoCollaborators 1 demoSystem demoBadForce []
      demoWorld).world.iface.triggerForceKernel = some 1 ∧
    (initializeKernel demoCollaborators 1 demoSystem demoForce [[13]] demoWorld).result =
      .error (.engineError 1) ∧
    (initializeKernel demoCollaborators 1 demoSystem demoForce [[13]] demoWorld).world.iface =
      demoWorld.iface :=
  ⟨rfl, rfl,
   ((initialize_failure_keeps_partial_state demoCollaborators 1 demoSystem demoBadForce []
     demoWorld [] .invalidParticleReference rfl rfl).2.2.2.2.2 rfl).1,
   rfl,
   ((initialize_failure_keeps_partial_state demoCollaborators 1 demoSystem demoForce [[13]]
     demoWorld [] (.engineError 1) rfl rfl).2.2.2.2.1 (.engineError 1) rfl).2.1⟩

/-- C8 counterexample: kernel 1 of `demoWorld` is freshly constructed and no trigger is
registered.  `initialize` with `demoBadForce` fails with `InvalidParticleReference`, and
afterwards the kernel holds an engine object and a bond store, so it is not in its
uninitialized state, and it is registered as force and energy trigger.  `initialize` with the
exclusion list `[[13]]` fails in `setup`, and afterwards the kernel holds an engine object. -/
theorem initialize_not_atomic_counterexample :
    demoWorld.kernels 1 = Kernel.uninitialized ∧
    demoWorld.iface.triggerForceKernel = none ∧
    demoWorld.iface.triggerEnergyKernel = none ∧
    (initializeKernel demoCollaborators 1 demoSystem demoBadForce [] demoWorld).result =
      .error .invalidParticleReference ∧
    ((initializeKernel demoCollaborators 1 demoSystem demoBadForce [] demoWorld).world.kernels
      1).brookNonBonded = some (2 : Nat) ∧
    Option.map BrookBondParameters.slots
      ((initializeKernel demoCollaborators 1 demoSystem demoBadForce [] demoWorld).world.kernels
        1).brookBondParameters = some [some ([0, 3], [(5 : Int), 6, 7]), none] ∧
    (initializeKernel demoCollaborators 1 demoSystem demoBadForce [] demoWorld).world.kernels 1
      ≠ Kernel.uninitialized ∧
    (initializeKernel demoCollaborators 1 demoSystem demoBadForce []
      demoWorld).world.iface.triggerForceKernel = some 1 ∧
    (initializeKernel demoCollaborators 1 demoSystem demoBadForce []
      demoWorld).world.iface.triggerEnergyKernel = some 1 ∧
    (initializeKernel demoCollaborators 1 demoSystem demoForce [[13]] demoWorld).result =
      .error (.engineError 1) ∧
    ((initializeKernel demoCollaborators 1 demoSystem demoForce [[13]] demoWorld).world.kernels
      1).brookNonBonded = some (1 : Nat) :=
  ⟨rfl, rfl, rfl, rfl, rfl, rfl,
   (fun h => Option.noConfusion
     (show some (2 : Nat) = none from congrArg Kernel.brookNonBonded h)),
   rfl, rfl, rfl, rfl⟩

/-- A successful `initialize` has built the table, which is then empty. -/
theorem initializeKernel_ok_table {S : Sorts} (C : Collaborators S) (self : KernelId)
    (system : System) (force : NonbondedForce S.Dbl) (exclusions : List (List Int))
    (w : World S) (h : (initializeKernel C self system force exclusions w).result = .ok ()) :
    buildNonbondedParameters force force.getNumParticles = .ok [] := by
  cases ht : buildNonbondedParameters force force.getNumParticles with
  | error e => simp [initializeKernel, ht] at h
  | ok table => rw [(buildNonbondedParameters_ok _ _ _ ht).2]

/-- The state a successful `initialize` leaves: `setup` and the 1-4 loop succeeded; kernel
`self` has the particle count, the engine object that was set up and the filled store; the
interface has `self` as both triggers and the filled store registered; the calls are the one
of `setup` and then those of `setBond`. -/
theorem initializeKernel_ok_state {S : Sorts} (C : Collaborators S) (self : KernelId)
    (system : System) (force : NonbondedForce S.Dbl) (exclusions : List (List Int))
    (w : World S) (h : (initializeKernel C self system force exclusions w).result = .ok ()) :
    (C.setup C.newNonBonded force.getNumParticles [] exclusions).1 = none ∧
    (run14 C force).1 = .ok () ∧
    (initializeKernel C self system force exclusions w).world.kernels =
      (fun j =>
        if j = self then
          { numberOfParticles := force.getNumParticles
            brookNonBonded :=
              some (C.setup C.newNonBonded force.getNumParticles [] exclusions).2
            brookBondParameters := some (run14 C force).2.1 }
        else w.kernels j) ∧
    (initializeKernel C self system force exclusions w).world.iface =
      { triggerForceKernel := some self
        triggerEnergyKernel := some self
        nonBonded14ForceParameters := some (run14 C force).2.1
        engine := w.iface.engine } ∧
    (initializeKernel C self system force exclusions w).world.calls =
      w.calls ++ [Call.setup force.getNumParticles [] exclusions] ++ (run14 C force).2.2 := by
  have ht := initializeKernel_ok_table C self system force exclusions w h
  rw [initializeKernel_of_table C self system force exclusions w [] ht] at h ⊢
  obtain ⟨hk, hother, -, -⟩ := afterSetup_fields C self force exclusions [] w
  cases hs : (C.setup C.newNonBonded force.getNumParticles [] exclusions).1 with
  | some e =>
    rw [hs] at h
    cases h
  | none =>
    rw [hs] at h
    simp only [] at h ⊢
    have hres := initialize14Interactions_result C self system force
      (afterRegistration C self force exclusions [] w)
    have hiface := (initialize14Interactions_iface C self system force
      (afterRegistration C self force exclusions [] w)).2 h
    have hframe := initialize14Interactions_frame C self system force
      (afterRegistration C self force exclusions [] w)
    rw [h] at hres
    refine ⟨trivial, hres.symm, ?_, ?_, ?_⟩
    · rw [hframe.1]
      funext j
      by_cases hj : j = self
      · simp only [if_pos hj, (afterRegistration_fields C self force exclusions [] w).1, hk]
        rfl
      · simp only [if_neg hj, (afterRegistration_fields C self force exclusions [] w).1]
        exact hother j hj
    · rw [hiface]
      rfl
    · rw [hframe.2.1]
      rfl

/-- C4: let `a` and `b` be distinct kernels on one interface.  If `initialize` of `a`
succeeds and then `initialize` of `b` succeeds, whatever their inputs (identical ones
included), then `a` held both triggers in between, and afterwards `b` is the force trigger
and the energy trigger and `a` is neither; a following `executeForces` of `a` changes
nothing and makes no call, while `executeForces` of `b` calls the engine's force computation
once. -/
theorem initialize_last_caller_holds_triggers {S : Sorts} (C : Collaborators S)
    (a b : KernelId) (hab : a ≠ b) (systemA systemB : System)
    (forceA forceB : NonbondedForce S.Dbl) (exclusionsA exclusionsB : List (List Int))
    (w : World S)
    (hA : (initializeKernel C a systemA forceA exclusionsA w).result = .ok ())
    (hB : (initializeKernel C b systemB forceB exclusionsB
      (initializeKernel C a systemA forceA exclusionsA w).world).result = .ok ()) :
    ((initializeKernel C a systemA forceA exclusionsA w).world.iface.getTriggerForceKernel
        = some a ∧
      (initializeKernel C a systemA forceA exclusionsA w).world.iface.getTriggerEnergyKernel
        = some a) ∧
    ((initializeKernel C b systemB forceB exclusionsB
        (initializeKernel C a systemA forceA exclusionsA w).world).world.iface.getTriggerForceKernel
        = some b ∧
      (initializeKernel C b systemB forceB exclusionsB
        (initializeKernel C a systemA forceA exclusionsA w).world).world.iface.getTriggerEnergyKernel
        = some b) ∧
    ((initializeKernel C b systemB forceB exclusionsB
        (initializeKernel C a systemA forceA exclusionsA w).world).world.iface.getTriggerForceKernel
        ≠ some a ∧
      (initializeKernel C b systemB forceB exclusionsB
        (initializeKernel C a systemA forceA exclusionsA w).world).world.iface.getTriggerEnergyKernel
        ≠ some a) ∧
    (∀ context : S.Context,
      executeForces C a context (initializeKernel C b systemB forceB exclusionsB
          (initializeKernel C a systemA forceA exclusionsA w).world).world =
        { result := .ok ()
          world := (initializeKernel C b systemB forceB exclusionsB
            (initializeKernel C a systemA forceA exclusionsA w).world).world
          context := context }) ∧
    (∀ context : S.Context,
      (executeForces C b context (initializeKernel C b systemB forceB exclusionsB
          (initializeKernel C a systemA forceA exclusionsA w).world).world).world.calls =
        (initializeKernel C b systemB forceB exclusionsB
          (initializeKernel C a systemA forceA exclusionsA w).world).world.calls ++
          [Call.computeForces context]) := by
  have hsA := (initializeKernel_ok_state C a systemA forceA exclusionsA w hA).2.2.2.1
  have hsB := (initializeKernel_ok_state C b systemB forceB exclusionsB _ hB).2.2.2.1
  have hne : (some b : Option KernelId) ≠ some a := fun h => hab (Option.some.inj h).symm
  refine ⟨?_, ?_, ?_, ?_, ?_⟩
  · rw [hsA]
    exact ⟨rfl, rfl⟩
  · rw [hsB]
    exact ⟨rfl, rfl⟩
  · rw [hsB]
    exact ⟨hne, hne⟩
  · intro context
    have hnot : (initializeKernel C b systemB forceB exclusionsB
        (initializeKernel C a systemA forceA exclusionsA w).world).world.iface.getTriggerForceKernel
        ≠ some a := by
      rw [hsB]
      exact hne
    simp only [executeForces, if_neg hnot]
  · intro context
    have hyes : (initializeKernel C b systemB forceB exclusionsB
        (initializeKernel C a systemA forceA exclusionsA w).world).world.iface.getTriggerForceKernel
        = some b := by
      rw [hsB]
      rfl
    simp only [executeForces, if_pos hyes, World.computeForces]

/-- C4 witness: kernels 1 and 2 are initialized one after the other with identical inputs;
afterwards kernel 2 holds both triggers, `executeForces` of kernel 1 is a no-op and the one
of kernel 2 calls the engine. -/
theorem initialize_last_caller_holds_triggers_witness :
    (1 : KernelId) ≠ 2 ∧
    (initializeKernel demoCollaborators 1 demoSystem demoForce [] demoWorld).result = .ok () ∧
    (initializeKernel demoCollaborators 2 demoSystem demoForce []
      (initializeKernel demoCollaborators 1 demoSystem demoForce [] demoWorld).world).result
      = .ok () ∧
    (initializeKernel demoCollaborators 2 demoSystem demoForce []
      (initializeKernel demoCollaborators 1 demoSystem demoForce []
        demoWorld).world).world.iface.getTriggerForceKernel = some 2 ∧
    (executeForces demoCollaborators 1 (5 : Int) (initializeKernel demoCollaborators 2
      demoSystem demoForce [] (initializeKernel demoCollaborators 1 demoSystem demoForce []
        demoWorld).world).world).context = (5 : Int) ∧
    (executeForces demoCollaborators 2 (5 : Int) (initializeKernel demoCollaborators 2
      demoSystem demoForce [] (initializeKernel demoCollaborators 1 demoSystem demoForce []
        demoWorld).world).world).context = (6 : Int) :=
  ⟨by decide, rfl, rfl,
   (initialize_last_caller_holds_triggers demoCollaborators 1 2 (by decide) demoSystem
     demoSystem demoForce demoForce [] [] demoWorld rfl rfl).2.1.1,
   congrArg ExecOutcome.context ((initialize_last_caller_holds_triggers demoCollaborators 1 2
     (by decide) demoSystem demoSystem demoForce demoForce [] [] demoWorld rfl
     rfl).2.2.2.1 (5 : Int)),
   rfl⟩

/-! ### Idempotence of `initialize` -/

/-- The function `executeForces` reads only the interface: started in two worlds with the
same interface and kernels, its outcomes are indistinguishable. -/
theorem executeForces_agrees {S : Sorts} (C : Collaborators S) (k : KernelId)
    (context : S.Context) (w w1 : World S) (hi : w.iface = w1.iface)
    (hk : w.kernels = w1.kernels) :
    (executeForces C k context w).agrees (executeForces C k context w1) w w1 := by
  unfold ExecOutcome.agrees executeForces
  by_cases ht : w.iface.getTriggerForceKernel = some k
  · have ht1 : w1.iface.getTriggerForceKernel = some k := hi ▸ ht
    simp only [if_pos ht, if_pos ht1, World.computeForces, hi, hk]
    exact ⟨trivial, trivial, trivial, trivial, [Call.computeForces context], rfl, rfl⟩
  · have ht1 : ¬ w1.iface.getTriggerForceKernel = some k := hi ▸ ht
    simp only [if_neg ht, if_neg ht1, hi, hk]
    exact ⟨trivial, trivial, trivial, trivial, [], by simp, by simp⟩

/-- The function `executeEnergy` reads only the interface: started in two worlds with the
same interface and kernels, its outcomes are indistinguishable. -/
theorem executeEnergy_agrees {S : Sorts} (C : Collaborators S) (k : KernelId)
    (context : S.Context) (w w1 : World S) (hi : w.iface = w1.iface)
    (hk : w.kernels = w1.kernels) :
    (executeEnergy C k context w).agrees (executeEnergy C k context w1) w w1 := by
  unfold ExecOutcome.agrees executeEnergy
  by_cases ht : w.iface.getTriggerEnergyKernel = some k
  · have ht1 : w1.iface.getTriggerEnergyKernel = some k := hi ▸ ht
    simp only [if_pos ht, if_pos ht1, World.computeEnergy, hi, hk]
    exact ⟨trivial, trivial, trivial, trivial, [Call.computeEnergy context], rfl, rfl⟩
  · have ht1 : ¬ w1.iface.getTriggerEnergyKernel = some k := hi ▸ ht
    simp only [if_neg ht, if_neg ht1, hi, hk]
    exact ⟨trivial, trivial, trivial, trivial, [], by simp, by simp⟩

/-- C9: if `initialize` succeeds on an input, then calling it again with the same input
succeeds too and leaves the same kernels (particle count, engine object set up from the same
parameters and exclusions, 1-4 store with the same records) and the same interface (force
trigger, energy trigger, registered 1-4 store, engine state) as the first call did; hence
every following `executeForces` and `executeEnergy`, of any kernel on any context, has the
same result, leaves the same context and state, and makes the same calls in the two cases. -/
theorem initialize_idempotent {S : Sorts} (C : Collaborators S) (self : KernelId)
    (system : System) (force : NonbondedForce S.Dbl) (exclusions : List (List Int))
    (w : World S) (h : (initializeKernel C self system force exclusions w).result = .ok ()) :
    (initializeKernel C self system force exclusions
      (initializeKernel C self system force exclusions w).world).result = .ok () ∧
    (initializeKernel C self system force exclusions
      (initializeKernel C self system force exclusions w).world).world.kernels =
      (initializeKernel C self system force exclusions w).world.kernels ∧
    (initializeKernel C self system force exclusions
      (initializeKernel C self system force exclusions w).world).world.iface =
      (initializeKernel C self system force exclusions w).world.iface ∧
    (∀ (k : KernelId) (context : S.Context),
      (executeForces C k context (initializeKernel C self system force exclusions
        (initializeKernel C self system force exclusions w).world).world).agrees
      (executeForces C k context (initializeKernel C self system force exclusions w).world)
      (initializeKernel C self system force exclusions
        (initializeKernel C self system force exclusions w).world).world
      (initializeKernel C self system force exclusions w).world) ∧
    (∀ (k : KernelId) (context : S.Context),
      (executeEnergy C k context (initializeKernel C self system force exclusions
        (initializeKernel C self system force exclusions w).world).world).agrees
      (executeEnergy C k context (initializeKernel C self system force exclusions w).world)
      (initializeKernel C self system force exclusions
        (initializeKernel C self system force exclusions w).world).world
      (initializeKernel C self system force exclusions w).world) := by
  have ht := initializeKernel_ok_table C self system force exclusions w h
  obtain ⟨hs, hrun, hk1, hi1, -⟩ := initializeKernel_ok_state C self system force exclusions w h
  have h2 : (initializeKernel C self system force exclusions
      (initializeKernel C self system force exclusions w).world).result = .ok () := by
    rw [initializeKernel_of_table C self system force exclusions _ [] ht, hs]
    simp only []
    rw [initialize14Interactions_result]
    exact hrun
  obtain ⟨-, -, hk2, hi2, -⟩ :=
    initializeKernel_ok_state C self system force exclusions _ h2
  have hk : (initializeKernel C self system force exclusions
      (initializeKernel C self system force exclusions w).world).world.kernels =
      (initializeKernel C self system force exclusions w).world.kernels := by
    rw [hk2, hk1]
    funext j
    by_cases hj : j = self <;> simp [hj]
  have hi : (initializeKernel C self system force exclusions
      (initializeKernel C self system force exclusions w).world).world.iface =
      (initializeKernel C self system force exclusions w).world.iface := by
    rw [hi2, hi1]
  exact ⟨h2, hk, hi, fun k context => executeForces_agrees C k context _ _ hi hk,
    fun k context => executeEnergy_agrees C k context _ _ hi hk⟩

/-- C9 witness: `initialize` of kernel 1 with `demoForce` succeeds on `demoWorld`; a second
call succeeds and `executeForces` of kernel 1 then gives context 6 from context 5, as after
one call. -/
theorem initialize_idempotent_witness :
    (initializeKernel demoCollaborators 1 demoSystem demoForce [] demoWorld).result = .ok () ∧
    (initializeKernel demoCollaborators 1 demoSystem demoForce []
      (initializeKernel demoCollaborators 1 demoSystem demoForce [] demoWorld).world).result
      = .ok () ∧
    (initializeKernel demoCollaborators 1 demoSystem demoForce []
      (initializeKernel demoCollaborators 1 demoSystem demoForce []
        demoWorld).world).world.iface =
      (initializeKernel demoCollaborators 1 demoSystem demoForce [] demoWorld).world.iface ∧
    (executeForces demoCollaborators 1 (5 : Int) (initializeKernel demoCollaborators 1
      demoSystem demoForce [] (initializeKernel demoCollaborators 1 demoSystem demoForce []
        demoWorld).world).world).context = (6 : Int) ∧
    (executeForces demoCollaborators 1 (5 : Int) (initializeKernel demoCollaborators 1
      demoSystem demoForce [] demoWorld).world).context = (6 : Int) :=
  ⟨rfl,
   (initialize_idempotent demoCollaborators 1 demoSystem demoForce [] demoWorld rfl).1,
   (initialize_idempotent demoCollaborators 1 demoSystem demoForce [] demoWorld rfl).2.2.1,
   rfl, rfl⟩

/-! ### The relaxation of the Verlet step -/

/-- The relaxation makes at most `remaining` iterations; it reports convergence exactly when
the positions it reached are converged; and when they are not, it made all `remaining`
iterations. -/
theorem relax_spec {D Stream : Type} (cfg : VerletConfiguration D Stream) :
    ∀ (remaining : Nat) (positions : Stream),
      (cfg.relax remaining positions).2.2 ≤ remaining ∧
      (cfg.relax remaining positions).1 = cfg.converged (cfg.relax remaining positions).2.1 ∧
      ((cfg.relax remaining positions).1 = false →
        (cfg.relax remaining positions).2.2 = remaining) := by
  intro remaining
  induction remaining with
  | zero =>
    intro positions
    exact ⟨Nat.le_refl _, rfl, fun _ => rfl⟩
  | succ n ih =>
    intro positions
    by_cases hc : cfg.converged positions = true
    · simp [VerletConfiguration.relax, hc]
    · obtain ⟨h1, h2, h3⟩ := ih (cfg.sweep positions)
      simp only [VerletConfiguration.relax, hc, if_false, Bool.false_eq_true]
      exact ⟨Nat.succ_le_succ h1, h2, fun hf => by rw [h3 hf]⟩

/-- C10: for every configuration and every input, `execute` is a total function whose
relaxation makes at most `maxIterations` iterations; it signals
`ConstraintConvergenceFailure` exactly when some constraint distance of the positions it
reached is not within tolerance, and then it has made exactly `maxIterations` iterations;
and the forces after the call are the forces before. -/
theorem execute_relaxation_bounded {D Stream : Type} (cfg : VerletConfiguration D Stream)
    (positions velocities forces : Stream) (stepSize : D) :
    (execute cfg positions velocities forces stepSize).iterations ≤ cfg.maxIterations ∧
    ((execute cfg positions velocities forces stepSize).result =
        .error .constraintConvergenceFailure ↔
      cfg.converged (execute cfg positions velocities forces stepSize).positions = false) ∧
    (cfg.converged (execute cfg positions velocities forces stepSize).positions = false →
      (execute cfg positions velocities forces stepSize).iterations = cfg.maxIterations) ∧
    ((execute cfg positions velocities forces stepSize).result = .ok () ↔
      cfg.converged (execute cfg positions velocities forces stepSize).positions = true) ∧
    (execute cfg positions velocities forces stepSize).forces = forces := by
  obtain ⟨h1, h2, h3⟩ := relax_spec cfg cfg.maxIterations
    (cfg.verletUpdate cfg.masses positions velocities forces stepSize).1
  simp only [execute]
  rw [← h2]
  refine ⟨h1, ?_, h3, ?_, trivial⟩
  · cases (cfg.relax cfg.maxIterations
      (cfg.verletUpdate cfg.masses positions velocities forces stepSize).1).1 <;> simp
  · cases (cfg.relax cfg.maxIterations
      (cfg.verletUpdate cfg.masses positions velocities forces stepSize).1).1 <;> simp

/-- C10 witness: two constraints on the pair (0, 1) with target distances 1 and 2 cannot both
hold; `execute` stops after the 3 iterations the configuration allows and signals
`ConstraintConvergenceFailure`, with the forces untouched. -/
theorem execute_relaxation_bounded_witness :
    (execute demoConflict [0, 5] [0, 0] [1, -1] 1).result =
      .error .constraintConvergenceFailure ∧
    (execute demoConflict [0, 5] [0, 0] [1, -1] 1).iterations = 3 ∧
    (execute demoConflict [0, 5] [0, 0] [1, -1] 1).positions = [1, 3] ∧
    (execute demoConflict [0, 5] [0, 0] [1, -1] 1).forces = [1, -1] :=
  ⟨(execute_relaxation_bounded demoConflict [0, 5] [0, 0] [1, -1] 1).2.1.mpr rfl,
   (execute_relaxation_bounded demoConflict [0, 5] [0, 0] [1, -1] 1).2.2.1 rfl,
   rfl,
   (execute_relaxation_bounded demoConflict [0, 5] [0, 0] [1, -1] 1).2.2.2.2⟩

end Brook
